import Mathlib

/-!
# Verification of the normalization and scoring engine of the
Hardware-Benchmark-tool repository

This file shallowly embeds the core computational functions of the
repository (the statistical aggregator shared by the benchmark modules in
`src/benchmarks/`, the `DataNormalizer` of `src/utils/data_normalizer.py`,
and the `CapacityPlanner` of `src/capacity_planner.py`) and proves or
refutes the specified properties about them.

Modelling conventions:
* Python floats are modelled as exact rationals (`ℚ`); `round(x, 2)` is
  modelled by `round2`, Python's documented round-half-to-even applied at
  two decimal places.
* Python dicts keyed by strings are modelled by association lists or by
  structures with `Option` fields (an absent key is `none`).
* The square root inside `statistics.stdev` is modelled by an abstract
  function parameter `f : ℚ → ℚ`; every proved property is independent
  of it.
* A dict that may carry an `error` key instead of data is modelled by a
  two-constructor inductive.
-/

/-- Round half to even of a rational to an integer, the tie-breaking rule
of Python's builtin `round`. -/
def rhe (q : ℚ) : ℤ :=
  if Int.fract q < 1/2 then ⌊q⌋
  else if 1/2 < Int.fract q then ⌊q⌋ + 1
  else if ⌊q⌋ % 2 = 0 then ⌊q⌋ else ⌊q⌋ + 1

/-- Model of Python's `round(x, 2)`: round half to even at two decimal
places. -/
def round2 (q : ℚ) : ℚ := (rhe (q * 100) : ℚ) / 100

/-- Embeds `DataNormalizer.normalize_value` from
`src/utils/data_normalizer.py`: clamp the value to the baseline range,
scale to 0-100 (direction-aware), round to two decimals; a missing
(`None`) value scores 0. -/
def normalize_value (value : Option ℚ) (min_val max_val : ℚ)
    (higher_better : Bool) : ℚ :=
  match value with
  | none => 0
  | some v =>
    let clamped := max min_val (min max_val v)
    let normalized :=
      if higher_better then (clamped - min_val) / (max_val - min_val) * 100
      else (max_val - clamped) / (max_val - min_val) * 100
    round2 normalized

/-! ## Statistical aggregator (`src/benchmarks/*.py`) -/

/-- A raw metric record of one successful benchmark run: the dict from
metric name to numeric value built by `parse_output`. -/
def RawRecord : Type := List (String × ℚ)

/-- Result of one `run_single_test` call: either a parsed record or a
dict carrying only an `error` message. -/
inductive RunResult where
  | ok (record : List (String × ℚ))
  | err (msg : String)

/-- The per-metric statistics dict built by `aggregate_results` in each
of the four benchmark classes. -/
structure MetricStats where
  mean : ℚ
  median : ℚ
  stdev : ℚ
  min : ℚ
  max : ℚ
  variance_percent : ℚ
deriving DecidableEq

/-- Model of `statistics.mean`. -/
def pyMean (values : List ℚ) : ℚ := values.sum / values.length

/-- Ascending insertion used by `pyMedian`. -/
def sortedInsertAsc (x : ℚ) : List ℚ → List ℚ
  | [] => [x]
  | y :: ys => if x ≤ y then x :: y :: ys else y :: sortedInsertAsc x ys

/-- Ascending sort used by `pyMedian`. -/
def sortAsc : List ℚ → List ℚ
  | [] => []
  | x :: xs => sortedInsertAsc x (sortAsc xs)

/-- Model of `statistics.median`: middle element of the sorted data for odd
length, mean of the two middle elements for even length.  (Python raises
on empty data; the call sites guard with `if values:`, so the value
returned at `[]` here is irrelevant junk.) -/
def pyMedian (values : List ℚ) : ℚ :=
  let s := sortAsc values
  let n := s.length
  if n % 2 = 1 then s.getD (n / 2) 0
  else (s.getD (n / 2 - 1) 0 + s.getD (n / 2) 0) / 2

/-- Model of `min(values)` over a nonempty list (junk 0 at `[]`, which call sites
guard against). -/
def pyListMin : List ℚ → ℚ
  | [] => 0
  | x :: xs => xs.foldl min x

/-- Model of `max(values)` over a nonempty list (junk 0 at `[]`). -/
def pyListMax : List ℚ → ℚ
  | [] => 0
  | x :: xs => xs.foldl max x

/-- The sample variance under the square root in `statistics.stdev`
(the n-1 definition). -/
def sampleVariance (values : List ℚ) : ℚ :=
  (values.map (fun x => (x - pyMean values) ^ 2)).sum / (values.length - 1)

/-- One statistics entry as built in the `for metric in metrics:` loop of
`aggregate_results` (identical in `cpu_benchmark.py`,
`memory_benchmark.py`, `disk_benchmark.py` and `network_benchmark.py`).
`f` models the square root inside `statistics.stdev`. -/
def mkMetricStats (f : ℚ → ℚ) (values : List ℚ) : MetricStats :=
  { mean := pyMean values
    median := pyMedian values
    stdev := if 1 < values.length then f (sampleVariance values) else 0
    min := pyListMin values
    max := pyListMax values
    variance_percent :=
      if 1 < values.length ∧ 0 < pyMean values then
        f (sampleVariance values) / pyMean values * 100
      else 0 }

/-- Model of `values = [r.get(metric) for r in results if metric in r]`. -/
def metricValues (metric : String) (results : List (List (String × ℚ))) :
    List ℚ :=
  results.filterMap (List.lookup metric)

/-- Output of `aggregate_results`: the empty dict for an empty run list,
otherwise the dict holding the runs and the per-metric statistics. -/
inductive AggOutcome where
  | empty
  | stats (runs : List (List (String × ℚ)))
      (statistics : List (String × MetricStats))

/-- Embeds `aggregate_results` (shared body of the four benchmark
classes): per requested metric, the statistics over the records that
carry that metric, skipping metrics carried by no record. -/
def aggregate_results (f : ℚ → ℚ) (metrics : List String)
    (results : List (List (String × ℚ))) : AggOutcome :=
  if results.isEmpty then .empty
  else .stats results
    (metrics.filterMap (fun metric =>
      let values := metricValues metric results
      if values.isEmpty then none
      else some (metric, mkMetricStats f values)))

def cpuMetrics : List String :=
  ["events_per_second", "latency_avg_ms", "latency_95p_ms"]

def diskMetrics : List String := ["iops", "bandwidth_kb", "latency_mean_us"]

/-- Result of a whole run-set: either the first error record or the
aggregated statistics. -/
inductive RunSetResult where
  | err (msg : String)
  | agg (a : AggOutcome)

def cpuRunGo (f : ℚ → ℚ) : List RunResult → List (List (String × ℚ)) →
    RunSetResult
  | [], acc => .agg (aggregate_results f cpuMetrics acc.reverse)
  | .err m :: _, _ => .err m
  | .ok r :: rest, acc => cpuRunGo f rest (r :: acc)

/-- Embeds the run loop of `CPUBenchmark.run`: abort on the first error
record, otherwise aggregate all runs.  The list argument models the
sequence of `run_single_test` outcomes. -/
def cpuRun (f : ℚ → ℚ) (runs : List RunResult) : RunSetResult :=
  cpuRunGo f runs []

def diskPatternGo (f : ℚ → ℚ) : List RunResult →
    List (List (String × ℚ)) → Option RunSetResult
  | [], acc =>
    if acc.isEmpty then none
    else some (.agg (aggregate_results f diskMetrics acc.reverse))
  | .err m :: _, acc =>
    if acc.isEmpty then some (.err m)
    else some (.agg (aggregate_results f diskMetrics acc.reverse))
  | .ok r :: rest, acc => diskPatternGo f rest (r :: acc)

/-- Embeds the body of the `for test_type in test_types:` loop of
`DiskBenchmark.run` for one test type: runs stop at the first error and
`all_results[test_type]` is first set to the error record, but the final
`if test_results:` overwrites it with the aggregate of the successful
prefix whenever that prefix is nonempty; `none` models a test type absent
from `all_results`. -/
def diskPatternRun (f : ℚ → ℚ) (runs : List RunResult) :
    Option RunSetResult :=
  diskPatternGo f runs []

/-! ## Normalizer (`src/utils/data_normalizer.py`) -/

/-- One baseline row of `DataNormalizer.baselines`. -/
structure Baseline where
  min : ℚ
  max : ℚ
  higher_better : Bool

def cpuBaseline : Baseline := ⟨100, 10000, true⟩

def memoryBaseline : Baseline := ⟨1000, 50000, true⟩

def diskIopsBaseline : Baseline := ⟨100, 100000, true⟩

def diskBandwidthBaseline : Baseline := ⟨10000, 5000000, true⟩

def networkBaseline : Baseline := ⟨10, 10000, true⟩

/-- Input of one domain (or of one disk pattern) to the normalizer: the
aggregated dict, either an error dict or one carrying a `statistics`
sub-dict (a missing `statistics` key is the empty list). -/
inductive DomainInput where
  | err (msg : String)
  | ok (statistics : List (String × MetricStats))

/-- Model of `stats.get(metric, ...).get('mean', 0)`. -/
def statMean (stats : List (String × MetricStats)) (metric : String) : ℚ :=
  match List.lookup metric stats with
  | some st => st.mean
  | none => 0

/-- Model of `stats.get(metric, ...).get('variance_percent', 0)`. -/
def statVariance (stats : List (String × MetricStats)) (metric : String) : ℚ :=
  match List.lookup metric stats with
  | some st => st.variance_percent
  | none => 0

/-- Output of `normalize_cpu`/`normalize_memory`/`normalize_network`, and
of one disk pattern: either the error dict passed through unchanged, or
the dict holding score, raw value, metric name and variance. -/
inductive NormEntry where
  | ok (score : ℚ) (raw_value : ℚ) (metric : String) (variance : ℚ)
  | err (msg : String)

/-- Model of `d.get('score', 0)` on a normalized entry: an error dict has no
`score` key, so the default 0 is read. -/
def NormEntry.getScore : NormEntry → ℚ
  | .ok s _ _ _ => s
  | .err _ => 0

/-- Embeds `DataNormalizer.normalize_cpu`. -/
def normalize_cpu (cpu_results : DomainInput) : NormEntry :=
  match cpu_results with
  | .err m => .err m
  | .ok stats =>
    let eps := statMean stats "events_per_second"
    .ok (normalize_value (some eps) cpuBaseline.min cpuBaseline.max
          cpuBaseline.higher_better)
      eps "events_per_second" (statVariance stats "events_per_second")

/-- Embeds `DataNormalizer.normalize_memory`. -/
def normalize_memory (memory_results : DomainInput) : NormEntry :=
  match memory_results with
  | .err m => .err m
  | .ok stats =>
    let rate := statMean stats "transfer_rate_mib_sec"
    .ok (normalize_value (some rate) memoryBaseline.min memoryBaseline.max
          memoryBaseline.higher_better)
      rate "transfer_rate_mib_sec" (statVariance stats "transfer_rate_mib_sec")

/-- Embeds `DataNormalizer.normalize_network`. -/
def normalize_network (network_results : DomainInput) : NormEntry :=
  match network_results with
  | .err m => .err m
  | .ok stats =>
    let bw := statMean stats "bandwidth_mbps"
    .ok (normalize_value (some bw) networkBaseline.min networkBaseline.max
          networkBaseline.higher_better)
      bw "bandwidth_mbps" (statVariance stats "bandwidth_mbps")

def charListStarts : List Char → List Char → Bool
  | [], _ => true
  | _ :: _, [] => false
  | a :: as, b :: bs => a = b && charListStarts as bs

def charListContains (sub : List Char) : List Char → Bool
  | [] => charListStarts sub []
  | c :: rest => charListStarts sub (c :: rest) || charListContains sub rest

/-- Python's substring test `sub in s`. -/
def strIn (sub s : String) : Bool := charListContains sub.toList s.toList

def diskTestTypes : List String := ["randread", "randwrite", "read", "write"]

/-- Body of the `for test_type in [...]` loop of
`DataNormalizer.normalize_disk` for one present test type: pass an error
dict through, otherwise score IOPS for random patterns and bandwidth for
sequential ones. -/
def diskPatternNorm (test_type : String) (test_data : DomainInput) :
    NormEntry :=
  match test_data with
  | .err m => .err m
  | .ok stats =>
    if strIn "rand" test_type then
      let iops := statMean stats "iops"
      .ok (normalize_value (some iops) diskIopsBaseline.min
            diskIopsBaseline.max diskIopsBaseline.higher_better)
        iops "iops" (statVariance stats "iops")
    else
      let bw := statMean stats "bandwidth_kb"
      .ok (normalize_value (some bw) diskBandwidthBaseline.min
            diskBandwidthBaseline.max diskBandwidthBaseline.higher_better)
        bw "bandwidth_kb" (statVariance stats "bandwidth_kb")

/-- The dict returned by `normalize_disk`: the per-pattern entries plus
the `average_score` key (always written, 0 when no pattern scored). -/
structure DiskNorm where
  patterns : List (String × NormEntry)
  average_score : ℚ

/-- Embeds `DataNormalizer.normalize_disk`: normalize each of the four
patterns that is present in the input, then average the scores of the
entries that carry a `score` key (error entries carry none). -/
def normalize_disk (disk_results : List (String × DomainInput)) : DiskNorm :=
  let normalized := diskTestTypes.filterMap (fun tt =>
    match List.lookup tt disk_results with
    | none => none
    | some td => some (tt, diskPatternNorm tt td))
  let scores := normalized.filterMap (fun p =>
    match p.2 with
    | .ok s _ _ _ => some s
    | .err _ => none)
  { patterns := normalized
    average_score :=
      if scores.isEmpty then 0 else round2 (scores.sum / scores.length) }

/-- The dict handed to `calculate_overall_score` (and persisted as
`normalized_results.json` minus the `overall_score` key): one optional
entry per domain. -/
structure NormalizedMap where
  cpu : Option NormEntry
  memory : Option NormEntry
  disk : Option DiskNorm
  network : Option NormEntry

/-- Embeds `DataNormalizer.calculate_overall_score`: iterate the fixed
weight dict (cpu 0.3, memory 0.2, disk 0.3, network 0.2),
accumulating `score * weight` and `weight` for the domains present in
the dict (`.get('score', 0)`, `.get('average_score', 0)` for disk), and
return the rounded quotient, or 0 when no weight accumulated. -/
def calculate_overall_score (normalized : NormalizedMap) : ℚ :=
  let acc1 : ℚ × ℚ :=
    match normalized.cpu with
    | some e => (NormEntry.getScore e * (3/10), 3/10)
    | none => (0, 0)
  let acc2 : ℚ × ℚ :=
    match normalized.memory with
    | some e => (acc1.1 + NormEntry.getScore e * (2/10), acc1.2 + 2/10)
    | none => acc1
  let acc3 : ℚ × ℚ :=
    match normalized.disk with
    | some d => (acc2.1 + d.average_score * (3/10), acc2.2 + 3/10)
    | none => acc2
  let acc4 : ℚ × ℚ :=
    match normalized.network with
    | some e => (acc3.1 + NormEntry.getScore e * (2/10), acc3.2 + 2/10)
    | none => acc3
  if 0 < acc4.2 then round2 (acc4.1 / acc4.2) else 0

/-- The raw per-domain results handed to `DataNormalizer.normalize`. -/
structure RawResults where
  cpu : Option DomainInput
  memory : Option DomainInput
  disk : Option (List (String × DomainInput))
  network : Option DomainInput

/-- Embeds `DataNormalizer.normalize`: normalize each present domain,
then attach the overall score computed from the per-domain entries. -/
def DataNormalizer.normalize (results : RawResults) : NormalizedMap × ℚ :=
  let n : NormalizedMap :=
    { cpu := results.cpu.map normalize_cpu
      memory := results.memory.map normalize_memory
      disk := results.disk.map normalize_disk
      network := results.network.map normalize_network }
  (n, calculate_overall_score n)

/-! ## Capacity planner (`src/capacity_planner.py`) -/

/-- One entry of `CapacityPlanner.workload_profiles`: the four weights
and the `min_scores` thresholds. -/
structure WorkloadProfile where
  cpu_weight : ℚ
  memory_weight : ℚ
  disk_weight : ℚ
  network_weight : ℚ
  min_cpu : ℚ
  min_memory : ℚ
  min_disk : ℚ
  min_network : ℚ

def web_server : WorkloadProfile := ⟨35/100, 30/100, 20/100, 15/100, 60, 50, 40, 50⟩

def database : WorkloadProfile := ⟨30/100, 35/100, 30/100, 5/100, 70, 80, 75, 30⟩

def file_server : WorkloadProfile := ⟨15/100, 20/100, 50/100, 15/100, 40, 50, 80, 60⟩

def compute_intensive : WorkloadProfile := ⟨60/100, 25/100, 10/100, 5/100, 85, 70, 40, 30⟩

def general_purpose : WorkloadProfile := ⟨30/100, 25/100, 25/100, 20/100, 60, 60, 60, 50⟩

/-- The `workload_profiles` dict of `CapacityPlanner.__init__`. -/
def workload_profiles : List (String × WorkloadProfile) :=
  [("web_server", web_server), ("database", database),
   ("file_server", file_server), ("compute_intensive", compute_intensive),
   ("general_purpose", general_purpose)]

/-- A loaded system: the name/normalized/cost dict as
appended by `CapacityPlanner.load_system`. -/
structure SystemRecord where
  name : String
  normalized : NormalizedMap
  cost : Option ℚ

/-- Model of `norm.get(domain, ...).get('score', 0)` for cpu/memory/network. -/
def normScore (o : Option NormEntry) : ℚ :=
  match o with
  | some e => NormEntry.getScore e
  | none => 0

/-- Model of `norm.get('disk', ...).get('average_score', 0)`. -/
def diskAvgScore (o : Option DiskNorm) : ℚ :=
  match o with
  | some d => d.average_score
  | none => 0

/-- Embeds `CapacityPlanner.calculate_workload_score`: the weighted sum
of the four domain scores (missing domains read as 0), rounded to two
decimals. -/
def calculate_workload_score (system : SystemRecord)
    (profile : WorkloadProfile) : ℚ :=
  let cpu_score := normScore system.normalized.cpu
  let mem_score := normScore system.normalized.memory
  let disk_score := diskAvgScore system.normalized.disk
  let net_score := normScore system.normalized.network
  round2 (cpu_score * profile.cpu_weight + mem_score * profile.memory_weight +
    disk_score * profile.disk_weight + net_score * profile.network_weight)

/-- Embeds `CapacityPlanner.check_requirements`: every one of the four
domain scores (missing domains read as 0) must reach the profile's
minimum. -/
def check_requirements (system : SystemRecord)
    (profile : WorkloadProfile) : Bool :=
  let cpu_score := normScore system.normalized.cpu
  let mem_score := normScore system.normalized.memory
  let disk_score := diskAvgScore system.normalized.disk
  let net_score := normScore system.normalized.network
  decide (profile.min_cpu ≤ cpu_score) &&
    decide (profile.min_memory ≤ mem_score) &&
    decide (profile.min_disk ≤ disk_score) &&
    decide (profile.min_network ≤ net_score)

/-- One recommendation dict built inside
`CapacityPlanner.recommend_for_workload`. -/
structure Recommendation where
  system : String
  workload_score : ℚ
  meets_requirements : Bool
  cost : Option ℚ
  cost_performance_ratio : Option ℚ

/-- Reads the ratio field of a recommendation dict. -/
def recRatio (r : Recommendation) : Option ℚ :=
  match r with
  | { cost_performance_ratio := q, .. } => q

/-- The recommendation dict for one system, as built in the loop of
`recommend_for_workload`: the ratio is `score / cost` guarded only by the
truthiness of `cost` (`None` and `0` are falsy in Python). -/
def mkRecommendation (profile : WorkloadProfile) (sys : SystemRecord) :
    Recommendation :=
  let score := calculate_workload_score sys profile
  { system := sys.name
    workload_score := score
    meets_requirements := check_requirements sys profile
    cost := sys.cost
    cost_performance_ratio :=
      match sys.cost with
      | some c => if c = 0 then none else some (score / c)
      | none => none }

/-- Stable descending insertion by `workload_score`; an element keeps its
place before later elements of equal score. -/
def sortedInsertDesc (r : Recommendation) : List Recommendation →
    List Recommendation
  | [] => [r]
  | y :: ys =>
    if r.workload_score < y.workload_score then y :: sortedInsertDesc r ys
    else r :: y :: ys

/-- Model of `recommendations.sort(key=..., reverse=True)`: Python's sort is the
stable descending sort by `workload_score`, which is a unique function of
the input list; insertion sort computes it. -/
def sortDesc : List Recommendation → List Recommendation
  | [] => []
  | x :: xs => sortedInsertDesc x (sortDesc xs)

/-- Embeds `CapacityPlanner.recommend_for_workload`: empty for an unknown
profile name, otherwise one recommendation per loaded system, sorted by
descending workload score. -/
def recommend_for_workload (systems : List SystemRecord)
    (workload_type : String) : List Recommendation :=
  match List.lookup workload_type workload_profiles with
  | none => []
  | some profile => sortDesc (systems.map (mkRecommendation profile))

/-- Truthiness of `r['cost_performance_ratio']`: `None` and `0.0` are
falsy. -/
def ratioTruthy (r : Recommendation) : Bool :=
  match recRatio r with
  | none => false
  | some q => decide (q ≠ 0)

/-- Model of the filter `with_cost = [r for r in recommendations if the ratio is truthy]`
from `generate_recommendation_report`. -/
def with_cost (recs : List Recommendation) : List Recommendation :=
  recs.filter ratioTruthy

/-- The sort key read by `min(with_cost, key=...)`; every element of
`with_cost` carries `some` ratio, so the junk value at `none` is never
read there. -/
def ratioKey (r : Recommendation) : ℚ :=
  match recRatio r with
  | some q => q
  | none => 0

/-- Python's `min(xs, key=k)`: the first element attaining the minimal
key. -/
def pyMinBy (k : Recommendation → ℚ) : List Recommendation →
    Option Recommendation
  | [] => none
  | x :: xs => some (xs.foldl (fun b a => if k a < k b then a else b) x)

/-- Embeds the best-value selection of
`CapacityPlanner.generate_recommendation_report` (lines 191-197):
`min` over the ratio among recommendations with a truthy ratio, `none`
when no recommendation qualifies (the report then omits the section). -/
def best_value (recs : List Recommendation) : Option Recommendation :=
  pyMinBy ratioKey (with_cost recs)

/-- The disk input of the spec's example: randread scoring 80, randwrite
errored, read scoring 60, write scoring 40. -/
def c4DiskInput : List (String × DomainInput) :=
  [("randread", .ok [("iops", ⟨80020, 0, 0, 0, 0, 0⟩)]),
   ("randwrite", .err "Benchmark timed out"),
   ("read", .ok [("bandwidth_kb", ⟨3004000, 0, 0, 0, 0, 0⟩)]),
   ("write", .ok [("bandwidth_kb", ⟨2006000, 0, 0, 0, 0, 0⟩)])]

/-- A disk input in which every pattern errored. -/
def c4DiskAllErr : List (String × DomainInput) :=
  [("randread", .err "fio not found. Please install it."),
   ("randwrite", .err "fio not found. Please install it."),
   ("read", .err "fio not found. Please install it."),
   ("write", .err "fio not found. Please install it.")]

/-- A system whose normalized results score cpu 90, memory 70, disk 50
(average), network 40 — the spec's `compute_intensive` example system. -/
def exampleSystem : SystemRecord :=
  { name := "S"
    normalized :=
      { cpu := some (.ok 90 9010 "events_per_second" 0)
        memory := some (.ok 70 35300 "transfer_rate_mib_sec" 0)
        disk := some ⟨[], 50⟩
        network := some (.ok 40 4006 "bandwidth_mbps" 0) }
    cost := none }

/-- A normalized map in which every domain carries the same score. -/
def uniformNormalized (s : ℚ) : NormalizedMap :=
  ⟨some (.ok s 0 "" 0), some (.ok s 0 "" 0), some ⟨[], s⟩, some (.ok s 0 "" 0)⟩

/-- System A of the spec's best-value example: workload score 80,
cost 1000. -/
def sysA : SystemRecord := ⟨"A", uniformNormalized 80, some 1000⟩

/-- System B of the spec's best-value example: workload score 60,
cost 500. -/
def sysB : SystemRecord := ⟨"B", uniformNormalized 60, some 500⟩

/-- A loaded system with no benchmark domains (every score reads 0). -/
def sysZero : SystemRecord := ⟨"Z", ⟨none, none, none, none⟩, some 500⟩

/-- A loaded system whose cost is exactly 0. -/
def sysCost0 : SystemRecord := ⟨"C", ⟨none, none, none, none⟩, some 0⟩

/-! ## Claims -/

theorem rhe_floor_le (q : ℚ) : ⌊q⌋ ≤ rhe q := by
  unfold rhe
  split_ifs <;> omega

theorem rhe_le_floor_add_one (q : ℚ) : rhe q ≤ ⌊q⌋ + 1 := by
  unfold rhe
  split_ifs <;> omega

theorem rhe_mono {x y : ℚ} (hxy : x ≤ y) : rhe x ≤ rhe y := by
  rcases lt_or_eq_of_le (Int.floor_le_floor hxy) with hf | hf
  · calc rhe x ≤ ⌊x⌋ + 1 := rhe_le_floor_add_one x
    _ ≤ ⌊y⌋ := by omega
    _ ≤ rhe y := rhe_floor_le y
  · have hfr : Int.fract x ≤ Int.fract y := by
      unfold Int.fract
      rw [hf]
      exact sub_le_sub_right hxy _
    unfold rhe
    rw [hf]
    split_ifs <;> first | omega | linarith

theorem rhe_intCast (n : ℤ) : rhe (n : ℚ) = n := by
  unfold rhe
  rw [Int.fract_intCast, Int.floor_intCast]
  norm_num

theorem rhe_eq_of_lt_half (q : ℚ) (n : ℤ) (h1 : (n : ℚ) ≤ q)
    (h2 : q < (n : ℚ) + 1/2) : rhe q = n := by
  have hfl : ⌊q⌋ = n := Int.floor_eq_iff.mpr ⟨h1, by linarith⟩
  have hfr : Int.fract q < 1/2 := by
    unfold Int.fract
    rw [hfl]
    linarith
  unfold rhe
  rw [if_pos hfr, hfl]

theorem rhe_eq_of_gt_half (q : ℚ) (n : ℤ) (h1 : (n : ℚ) + 1/2 < q)
    (h2 : q < (n : ℚ) + 1) : rhe q = n + 1 := by
  have hfl : ⌊q⌋ = n := Int.floor_eq_iff.mpr ⟨by linarith, by linarith⟩
  have hfr : 1/2 < Int.fract q := by
    unfold Int.fract
    rw [hfl]
    linarith
  unfold rhe
  rw [if_neg (by linarith), if_pos hfr, hfl]

theorem round2_mono {x y : ℚ} (hxy : x ≤ y) : round2 x ≤ round2 y := by
  unfold round2
  have h : rhe (x * 100) ≤ rhe (y * 100) := rhe_mono (by linarith)
  have h100 : (0 : ℚ) < 100 := by norm_num
  exact (div_le_div_iff_of_pos_right h100).mpr (by exact_mod_cast h)

theorem round2_intCast (n : ℤ) : round2 (n : ℚ) = (n : ℚ) := by
  unfold round2
  rw [show ((n : ℚ) * 100) = ((n * 100 : ℤ) : ℚ) by push_cast; ring, rhe_intCast]
  push_cast
  ring

theorem round2_div100 (n : ℤ) : round2 ((n : ℚ) / 100) = (n : ℚ) / 100 := by
  unfold round2
  rw [show ((n : ℚ) / 100 * 100) = ((n : ℤ) : ℚ) by ring, rhe_intCast]

theorem round2_zero : round2 0 = 0 := by
  have := round2_intCast 0
  norm_num at this
  exact this

theorem round2_hundred : round2 100 = 100 := by
  have := round2_intCast 100
  norm_num at this
  exact this

theorem round2_mem_Icc {x : ℚ} (h0 : 0 ≤ x) (h1 : x ≤ 100) :
    0 ≤ round2 x ∧ round2 x ≤ 100 := by
  constructor
  · have := round2_mono h0
    rwa [round2_zero] at this
  · have := round2_mono h1
    rwa [round2_hundred] at this


theorem normalize_value_some (min_val max_val v : ℚ) :
    normalize_value (some v) min_val max_val true =
      round2 ((max min_val (min max_val v) - min_val) /
        (max_val - min_val) * 100) := rfl

theorem normalize_value_pre_bounds (min_val max_val v : ℚ)
    (h : min_val < max_val) :
    0 ≤ (max min_val (min max_val v) - min_val) / (max_val - min_val) * 100 ∧
      (max min_val (min max_val v) - min_val) / (max_val - min_val) * 100 ≤ 100 := by
  have hd : 0 < max_val - min_val := sub_pos.mpr h
  have hlo : min_val ≤ max min_val (min max_val v) := le_max_left _ _
  have hhi : max min_val (min max_val v) ≤ max_val :=
    max_le h.le (min_le_left _ _)
  constructor
  · have h1 : 0 ≤ max min_val (min max_val v) - min_val := by linarith
    positivity
  · have h1 : (max min_val (min max_val v) - min_val) / (max_val - min_val) ≤ 1 := by
      rw [div_le_one hd]
      linarith
    nlinarith

/-- C5: with `higher_is_better = true`, `normalize_value` is monotone
non-decreasing in the value over the whole line, maps the baseline
minimum to 0 and the baseline maximum to 100, returns the nearer
boundary's score for out-of-range values, and always lies in
`[0, 100]`. -/
theorem c5_normalize_value_clamped_monotone (min_val max_val v w : ℚ)
    (h : min_val < max_val) :
    (v ≤ w → normalize_value (some v) min_val max_val true ≤
      normalize_value (some w) min_val max_val true) ∧
    normalize_value (some min_val) min_val max_val true = 0 ∧
    normalize_value (some max_val) min_val max_val true = 100 ∧
    (v ≤ min_val → normalize_value (some v) min_val max_val true =
      normalize_value (some min_val) min_val max_val true) ∧
    (max_val ≤ v → normalize_value (some v) min_val max_val true =
      normalize_value (some max_val) min_val max_val true) ∧
    0 ≤ normalize_value (some v) min_val max_val true ∧
    normalize_value (some v) min_val max_val true ≤ 100 := by
  have hd : 0 < max_val - min_val := sub_pos.mpr h
  have hclamp_min : max min_val (min max_val min_val) = min_val := by
    rw [min_eq_right h.le, max_self]
  have hclamp_max : max min_val (min max_val max_val) = max_val := by
    rw [min_self, max_eq_right h.le]
  refine ⟨?_, ?_, ?_, ?_, ?_, ?_, ?_⟩
  · intro hvw
    rw [normalize_value_some, normalize_value_some]
    apply round2_mono
    have hc : max min_val (min max_val v) ≤ max min_val (min max_val w) :=
      max_le_max le_rfl (min_le_min le_rfl hvw)
    have h1 : max min_val (min max_val v) - min_val ≤
        max min_val (min max_val w) - min_val := by linarith
    have h2 := (div_le_div_iff_of_pos_right hd).mpr h1
    nlinarith
  · rw [normalize_value_some, hclamp_min]
    rw [show (min_val - min_val) / (max_val - min_val) * 100 = 0 by ring]
    exact round2_zero
  · rw [normalize_value_some, hclamp_max]
    rw [div_self (sub_ne_zero.mpr (ne_of_gt h))]
    norm_num
    exact round2_hundred
  · intro hv
    rw [normalize_value_some, normalize_value_some, hclamp_min]
    have : max min_val (min max_val v) = min_val := by
      rw [min_eq_right (hv.trans h.le), max_eq_left hv]
    rw [this]
  · intro hv
    rw [normalize_value_some, normalize_value_some, hclamp_max]
    have : max min_val (min max_val v) = max_val := by
      rw [min_eq_left hv, max_eq_right h.le]
    rw [this]
  · rw [normalize_value_some]
    exact (round2_mem_Icc (normalize_value_pre_bounds min_val max_val v h).1
      (normalize_value_pre_bounds min_val max_val v h).2).1
  · rw [normalize_value_some]
    exact (round2_mem_Icc (normalize_value_pre_bounds min_val max_val v h).1
      (normalize_value_pre_bounds min_val max_val v h).2).2

/-- Witness for C5 at the CPU baseline 100-10000 and values 5500, 6000. -/
theorem c5_normalize_value_clamped_monotone_witness :
    (100 : ℚ) < 10000 ∧
      normalize_value (some 100) 100 10000 true = 0 ∧
      normalize_value (some 10000) 100 10000 true = 100 :=
  ⟨by norm_num,
    (c5_normalize_value_clamped_monotone 100 10000 5500 6000 (by norm_num)).2.1,
    (c5_normalize_value_clamped_monotone 100 10000 5500 6000 (by norm_num)).2.2.1⟩

/-- C9: in every statistics entry produced by `aggregate_results`, a
single-sample metric reports `stdev = 0` and `variance_percent = 0`
whatever the value is, `variance_percent = stdev / mean * 100` exactly
when at least two samples exist and the mean is positive, and
`variance_percent = 0` when the mean is nonpositive or fewer than two
samples exist, so the division is never taken at a nonpositive mean. -/
theorem c9_aggregate_variance_policy (f : ℚ → ℚ) (metrics : List String)
    (results runs : List (List (String × ℚ)))
    (stats : List (String × MetricStats)) (metric : String)
    (st : MetricStats)
    (hagg : aggregate_results f metrics results = .stats runs stats)
    (hmem : (metric, st) ∈ stats) :
    ((metricValues metric results).length = 1 →
      st.stdev = 0 ∧ st.variance_percent = 0) ∧
    (2 ≤ (metricValues metric results).length → 0 < st.mean →
      st.variance_percent = st.stdev / st.mean * 100) ∧
    ((metricValues metric results).length < 2 ∨ st.mean ≤ 0 →
      st.variance_percent = 0) := by
  unfold aggregate_results at hagg
  by_cases hres : results.isEmpty
  · rw [if_pos hres] at hagg
    exact absurd hagg (by simp)
  · rw [if_neg hres] at hagg
    injection hagg with h1 h2
    subst h2
    obtain ⟨a, _, hga⟩ := List.mem_filterMap.mp hmem
    by_cases hemp : (metricValues a results).isEmpty
    · rw [if_pos hemp] at hga
      exact absurd hga (by simp)
    · rw [if_neg hemp] at hga
      injection hga with hpair
      injection hpair with hax hstx
      subst hax
      subst hstx
      refine ⟨?_, ?_, ?_⟩
      · intro hlen
        refine ⟨?_, ?_⟩
        · simp only [mkMetricStats]
          rw [if_neg (by omega)]
        · simp only [mkMetricStats]
          rw [if_neg (fun hc => absurd hc.1 (by omega))]
      · intro hlen hmean
        simp only [mkMetricStats] at hmean ⊢
        rw [if_pos ⟨by omega, hmean⟩, if_pos (by omega)]
      · intro hb
        simp only [mkMetricStats] at hb ⊢
        rcases hb with hb | hb
        · rw [if_neg (fun hc => absurd hc.1 (by omega))]
        · rw [if_neg (fun hc => absurd hb (not_le.mpr hc.2))]

/-- Witness for C9: a single run with one metric value 5. -/
theorem c9_aggregate_variance_policy_witness :
    (mkMetricStats id [(5 : ℚ)]).stdev = 0 ∧
      (mkMetricStats id [(5 : ℚ)]).variance_percent = 0 :=
  (c9_aggregate_variance_policy id ["m"] [[("m", 5)]] [[("m", 5)]]
    [("m", mkMetricStats id [5])] "m" (mkMetricStats id [5])
    rfl (by simp)).1 rfl

/-- C3 (evaluation at the failing input): in `DiskBenchmark.run`, a
run-set whose first run succeeds (IOPS 500) and whose second run errors
is reported as the aggregated statistics of the successful prefix, not
as the error record — the stored error is overwritten by the
`if test_results:` block — whereas `CPUBenchmark.run` on the same
sequence does return the error record. -/
theorem c3_disk_overwrites_error (f : ℚ → ℚ) :
    diskPatternRun f
        [.ok [("iops", 500), ("bandwidth_kb", 2000), ("latency_mean_us", 3)],
         .err "Benchmark timed out"] =
      some (.agg (aggregate_results f diskMetrics
        [[("iops", 500), ("bandwidth_kb", 2000), ("latency_mean_us", 3)]])) ∧
    (∀ m, diskPatternRun f
        [.ok [("iops", 500), ("bandwidth_kb", 2000), ("latency_mean_us", 3)],
         .err "Benchmark timed out"] ≠ some (.err m)) ∧
    cpuRun f
        [.ok [("events_per_second", 500)], .err "Benchmark timed out"] =
      .err "Benchmark timed out" := by
  refine ⟨rfl, ?_, rfl⟩
  intro m h
  rw [show diskPatternRun f
      [.ok [("iops", 500), ("bandwidth_kb", 2000), ("latency_mean_us", 3)],
       .err "Benchmark timed out"] =
      some (.agg (aggregate_results f diskMetrics
        [[("iops", 500), ("bandwidth_kb", 2000), ("latency_mean_us", 3)]]))
    from rfl] at h
  rw [show aggregate_results f diskMetrics
      [[("iops", 500), ("bandwidth_kb", 2000), ("latency_mean_us", 3)]] =
      .stats [[("iops", 500), ("bandwidth_kb", 2000), ("latency_mean_us", 3)]]
        [("iops", mkMetricStats f [500]),
         ("bandwidth_kb", mkMetricStats f [2000]),
         ("latency_mean_us", mkMetricStats f [3])] from rfl] at h
  exact absurd h (by simp)

theorem round2_eq_of_eq_intCast (q : ℚ) (n : ℤ) (h : q = (n : ℚ)) :
    round2 q = q := by
  rw [h, round2_intCast]

theorem c4_nv_randread : normalize_value (some 80020) 100 100000 true = 80 := by
  rw [normalize_value_some]
  rw [min_eq_right (by norm_num : (80020 : ℚ) ≤ 100000),
    max_eq_right (by norm_num : (100 : ℚ) ≤ 80020)]
  rw [show ((80020 : ℚ) - 100) / (100000 - 100) * 100 = ((80 : ℤ) : ℚ) by norm_num]
  rw [round2_intCast]
  norm_num

theorem c4_nv_read : normalize_value (some 3004000) 10000 5000000 true = 60 := by
  rw [normalize_value_some]
  rw [min_eq_right (by norm_num : (3004000 : ℚ) ≤ 5000000),
    max_eq_right (by norm_num : (10000 : ℚ) ≤ 3004000)]
  rw [show ((3004000 : ℚ) - 10000) / (5000000 - 10000) * 100 = ((60 : ℤ) : ℚ) by
    norm_num]
  rw [round2_intCast]
  norm_num

theorem c4_nv_write : normalize_value (some 2006000) 10000 5000000 true = 40 := by
  rw [normalize_value_some]
  rw [min_eq_right (by norm_num : (2006000 : ℚ) ≤ 5000000),
    max_eq_right (by norm_num : (10000 : ℚ) ≤ 2006000)]
  rw [show ((2006000 : ℚ) - 10000) / (5000000 - 10000) * 100 = ((40 : ℤ) : ℚ) by
    norm_num]
  rw [round2_intCast]
  norm_num

/-- C4 (counterexample): a normalized map whose cpu domain is an error
dict and whose memory domain scored 100 gets overall score 40, not the
100 the claim's "contributes neither score nor weight" would give:
the error domain is present in the dict, so it contributes its full 0.3
weight with score 0. -/
theorem c4_counterexample :
    calculate_overall_score
        { cpu := some (.err "sysbench not found. Please install it.")
          memory := some (.ok 100 50000 "transfer_rate_mib_sec" 0)
          disk := none
          network := none } = 40 ∧
      round2 ((100 * (2/10)) / (2/10)) = 100 ∧ (40 : ℚ) ≠ 100 := by
  refine ⟨?_, ?_, by norm_num⟩
  · show (if (0 : ℚ) < 3/10 + 2/10 then
        round2 ((NormEntry.getScore (.err "sysbench not found. Please install it.") * (3/10) +
          NormEntry.getScore (.ok 100 50000 "transfer_rate_mib_sec" 0) * (2/10)) /
          (3/10 + 2/10))
      else 0) = 40
    rw [if_pos (by norm_num)]
    simp only [NormEntry.getScore]
    rw [show ((0 : ℚ) * (3/10) + 100 * (2/10)) / (3/10 + 2/10) = ((40 : ℤ) : ℚ) by
      norm_num]
    rw [round2_intCast]
    norm_num
  · rw [show ((100 : ℚ) * (2/10)) / (2/10) = ((100 : ℤ) : ℚ) by norm_num]
    rw [round2_intCast]
    norm_num

/-- C4 (amended): an errored disk pattern is excluded from both the sum
and the count of `average_score` (the spec's example yields 60); a disk
domain whose every pattern errored yields the numeric `average_score` 0,
not an error passthrough; a whole-domain error is passed through
normalization unchanged for cpu/memory/network; but any domain present
in the normalized map — error or not — contributes its full weight to
`overall_score`, an error domain doing so with score 0. -/
theorem c4_amended_error_domains :
    (normalize_disk c4DiskInput).average_score = 60 ∧
    (normalize_disk c4DiskAllErr).average_score = 0 ∧
    (∀ m, normalize_cpu (.err m) = .err m) ∧
    (∀ m, normalize_memory (.err m) = .err m) ∧
    (∀ m, normalize_network (.err m) = .err m) ∧
    (∀ m mem dsk net,
      calculate_overall_score ⟨some (.err m), mem, dsk, net⟩ =
        calculate_overall_score ⟨some (.ok 0 0 "" 0), mem, dsk, net⟩) := by
  refine ⟨?_, ?_, fun m => rfl, fun m => rfl, fun m => rfl, fun m mem dsk net => rfl⟩
  · show (if ([normalize_value (some 80020) 100 100000 true,
        normalize_value (some 3004000) 10000 5000000 true,
        normalize_value (some 2006000) 10000 5000000 true] : List ℚ).isEmpty
      then (0 : ℚ)
      else round2 ((normalize_value (some 80020) 100 100000 true +
        (normalize_value (some 3004000) 10000 5000000 true +
          (normalize_value (some 2006000) 10000 5000000 true + 0))) / 3)) = 60
    rw [c4_nv_randread, c4_nv_read, c4_nv_write]
    rw [if_neg (by simp)]
    rw [show ((80 : ℚ) + (60 + (40 + 0))) / 3 = ((60 : ℤ) : ℚ) by norm_num]
    rw [round2_intCast]
    norm_num
  · rfl

theorem round2_eq_of_eq_div100 (q : ℚ) (n : ℤ) (h : q = (n : ℚ) / 100) :
    round2 q = q := by
  rw [h, round2_div100]

/-- C6 (counterexample): with only CPU (score 0.01) and memory (score 0)
present, `calculate_overall_score` returns 0.01, while the claim's exact
expression `(cpu_score*0.3 + mem_score*0.2)/(0.3+0.2)` equals 0.006: the
code rounds the quotient to two decimals, so the plain equality of the
claim fails. -/
theorem c6_counterexample :
    calculate_overall_score
        { cpu := some (.ok (1/100) 0 "events_per_second" 0)
          memory := some (.ok 0 0 "transfer_rate_mib_sec" 0)
          disk := none
          network := none } = 1/100 ∧
      ((1/100 : ℚ) * (3/10) + 0 * (2/10)) / (3/10 + 2/10) = 3/500 ∧
      (1/100 : ℚ) ≠ 3/500 := by
  refine ⟨?_, by norm_num, by norm_num⟩
  show (if (0 : ℚ) < 3/10 + 2/10 then
      round2 ((NormEntry.getScore (.ok (1/100) 0 "events_per_second" 0) * (3/10) +
        NormEntry.getScore (.ok 0 0 "transfer_rate_mib_sec" 0) * (2/10)) /
        (3/10 + 2/10))
    else 0) = 1/100
  rw [if_pos (by norm_num)]
  simp only [NormEntry.getScore]
  rw [show ((1/100 : ℚ) * (3/10) + 0 * (2/10)) / (3/10 + 2/10) = 3/500 by norm_num]
  unfold round2
  rw [show (3/500 : ℚ) * 100 = 3/5 by norm_num]
  rw [rhe_eq_of_gt_half (3/5) 0 (by norm_num) (by norm_num)]
  norm_num

/-- C6 (amended): `calculate_overall_score` with only CPU and memory
present equals the round-to-two-decimals of
`(cpu_score*0.3 + mem_score*0.2) / (0.3 + 0.2)` — the denominator is the
sum of the weights of the present domains only, independent of the disk
and network weight constants — and it is 0 when no domain is present. -/
theorem c6_amended_present_weight_renormalization (e1 e2 : NormEntry) :
    calculate_overall_score ⟨some e1, some e2, none, none⟩ =
      round2 ((NormEntry.getScore e1 * (3/10) + NormEntry.getScore e2 * (2/10)) /
        (3/10 + 2/10)) ∧
    calculate_overall_score ⟨none, none, none, none⟩ = 0 := by
  constructor
  · show (if (0 : ℚ) < 3/10 + 2/10 then
        round2 ((NormEntry.getScore e1 * (3/10) + NormEntry.getScore e2 * (2/10)) /
          (3/10 + 2/10))
      else 0) = _
    rw [if_pos (by norm_num)]
  · show (if (0 : ℚ) < 0 then round2 (0 / 0) else 0) = 0
    rw [if_neg (by norm_num)]

/-- C7 (counterexample): the spec's example arithmetic is wrong: on the
cpu=90, memory=70, disk=50, network=40 system, the `compute_intensive`
workload score computed by `calculate_workload_score` is
`90*0.60 + 70*0.25 + 50*0.10 + 40*0.05 = 78.5`, not the claimed 77.5. -/
theorem c7_counterexample :
    calculate_workload_score exampleSystem compute_intensive = 157/2 ∧
      (157/2 : ℚ) ≠ 155/2 := by
  refine ⟨?_, by norm_num⟩
  show round2 (90 * (60/100) + 70 * (25/100) + 50 * (10/100) + 40 * (5/100)) =
    157/2
  rw [round2_eq_of_eq_div100 _ 7850 (by norm_num)]
  norm_num

/-- C7 (amended): `calculate_workload_score` is the rounded weighted sum
of the four domain scores under the profile's weights with no
renormalization — a missing domain contributes 0, its weight simply
dropping from the sum — and the `compute_intensive` example system
yields exactly 78.5. -/
theorem c7_amended_workload_score (p : WorkloadProfile) (c m n : ℚ) :
    calculate_workload_score
        ⟨"x", ⟨some (.ok c 0 "" 0), some (.ok m 0 "" 0), none,
          some (.ok n 0 "" 0)⟩, none⟩ p =
      round2 (c * p.cpu_weight + m * p.memory_weight + n * p.network_weight) ∧
    calculate_workload_score exampleSystem compute_intensive = 157/2 := by
  constructor
  · show round2 (c * p.cpu_weight + m * p.memory_weight + 0 * p.disk_weight +
      n * p.network_weight) = _
    congr 1
    ring
  · show round2 (90 * (60/100) + 70 * (25/100) + 50 * (10/100) + 40 * (5/100)) =
      157/2
    rw [round2_eq_of_eq_div100 _ 7850 (by norm_num)]
    norm_num

/-- C8: `check_requirements` is true exactly when each of the four domain
scores (a missing domain reading as 0) reaches the profile's minimum;
consequently a system with a missing cpu domain fails any profile with a
positive cpu minimum. -/
theorem c8_check_requirements_iff (sys : SystemRecord) (p : WorkloadProfile) :
    (check_requirements sys p = true ↔
      (p.min_cpu ≤ normScore sys.normalized.cpu ∧
        p.min_memory ≤ normScore sys.normalized.memory ∧
        p.min_disk ≤ diskAvgScore sys.normalized.disk ∧
        p.min_network ≤ normScore sys.normalized.network)) ∧
    (sys.normalized.cpu = none → 0 < p.min_cpu →
      check_requirements sys p = false) := by
  constructor
  · simp [check_requirements, and_assoc]
  · intro hnone hpos
    have h0 : ¬(p.min_cpu ≤ normScore sys.normalized.cpu) := by
      rw [hnone]
      simpa [normScore] using hpos
    simp [check_requirements, h0]

/-- Witness for C8: the example system meets the `compute_intensive`
minima 85/70/40/30, and a cpu-less system fails them. -/
theorem c8_check_requirements_iff_witness :
    check_requirements exampleSystem compute_intensive = true ∧
      check_requirements ⟨"y", ⟨none, none, none, none⟩, none⟩
        compute_intensive = false :=
  ⟨(c8_check_requirements_iff exampleSystem compute_intensive).1.mpr
    (by norm_num [exampleSystem, compute_intensive, normScore, diskAvgScore,
      NormEntry.getScore]),
   (c8_check_requirements_iff ⟨"y", ⟨none, none, none, none⟩, none⟩
      compute_intensive).2 rfl (by norm_num [compute_intensive])⟩

theorem score_sysA : calculate_workload_score sysA compute_intensive = 80 := by
  show round2 (80 * (60/100) + 80 * (25/100) + 80 * (10/100) + 80 * (5/100)) = 80
  rw [round2_eq_of_eq_intCast _ 80 (by norm_num)]
  norm_num

theorem score_sysB : calculate_workload_score sysB compute_intensive = 60 := by
  show round2 (60 * (60/100) + 60 * (25/100) + 60 * (10/100) + 60 * (5/100)) = 60
  rw [round2_eq_of_eq_intCast _ 60 (by norm_num)]
  norm_num

theorem score_sysZero : calculate_workload_score sysZero compute_intensive = 0 := by
  show round2 (0 * (60/100) + 0 * (25/100) + 0 * (10/100) + 0 * (5/100)) = 0
  rw [round2_eq_of_eq_intCast _ 0 (by norm_num)]
  norm_num

theorem reqA : check_requirements sysA compute_intensive = false := by
  norm_num [check_requirements, sysA, uniformNormalized, compute_intensive,
    normScore, NormEntry.getScore, diskAvgScore]

theorem reqB : check_requirements sysB compute_intensive = false := by
  norm_num [check_requirements, sysB, uniformNormalized, compute_intensive,
    normScore, NormEntry.getScore, diskAvgScore]

theorem mkRecA : mkRecommendation compute_intensive sysA =
    ⟨"A", 80, false, some 1000, some (2/25)⟩ := by
  norm_num [mkRecommendation, score_sysA, reqA]
  constructor
  · rfl
  · norm_num [sysA]

theorem mkRecB : mkRecommendation compute_intensive sysB =
    ⟨"B", 60, false, some 500, some (3/25)⟩ := by
  norm_num [mkRecommendation, score_sysB, reqB]
  constructor
  · rfl
  · norm_num [sysB]

/-- C1 (evaluation at the failing input): over system A (workload score
80, cost 1000) and system B (workload score 60, cost 500), the best-value
selection of `generate_recommendation_report` picks A, not the B the
spec's `cost/score` argmin would pick: the code stores `score/cost`
(A: 0.08, B: 0.12) under `cost_performance_ratio` and takes the minimum
of that. -/
theorem c1_best_value_selects_A :
    (best_value (recommend_for_workload [sysA, sysB]
        "compute_intensive")).map Recommendation.system = some "A" ∧
      "A" ≠ "B" := by
  have hlist : recommend_for_workload [sysA, sysB] "compute_intensive" =
      [⟨"A", 80, false, some 1000, some (2/25)⟩,
       ⟨"B", 60, false, some 500, some (3/25)⟩] := by
    unfold recommend_for_workload
    rw [show List.lookup "compute_intensive" workload_profiles =
      some compute_intensive from rfl]
    simp only [List.map, mkRecA, mkRecB]
    show sortedInsertDesc ⟨"A", 80, false, some 1000, some (2/25)⟩
      [⟨"B", 60, false, some 500, some (3/25)⟩] = _
    unfold sortedInsertDesc
    rw [if_neg (by norm_num)]
  refine ⟨?_, by simp⟩
  rw [hlist]
  have htA : ratioTruthy ⟨"A", 80, false, some 1000, some (2/25)⟩ = true := by
    simp only [ratioTruthy, recRatio]
    norm_num
  have htB : ratioTruthy ⟨"B", 60, false, some 500, some (3/25)⟩ = true := by
    simp only [ratioTruthy, recRatio]
    norm_num
  have hwc : with_cost
      [⟨"A", 80, false, some 1000, some (2/25)⟩,
       ⟨"B", 60, false, some 500, some (3/25)⟩] =
      [⟨"A", 80, false, some 1000, some (2/25)⟩,
       ⟨"B", 60, false, some 500, some (3/25)⟩] := by
    simp [with_cost, List.filter, htA, htB]
  unfold best_value
  rw [hwc]
  show (some (if ratioKey ⟨"B", 60, false, some 500, some (3/25)⟩ <
      ratioKey ⟨"A", 80, false, some 1000, some (2/25)⟩ then
        (⟨"B", 60, false, some 500, some (3/25)⟩ : Recommendation)
      else ⟨"A", 80, false, some 1000, some (2/25)⟩)).map
    Recommendation.system = some "A"
  rw [if_neg (by norm_num [ratioKey, recRatio])]
  rfl

/-- C2 (evaluation at the failing input): the recommendation built for
system B (workload score 60, cost 500) carries
`cost_performance_ratio = 60/500 = 0.12` — the code divides score by
cost — not the `500/60 ≈ 8.33` of the claim's `cost / workload_score`;
and a costed system with workload score 0 carries the ratio `0.0`, not
the absent value the claim requires. -/
theorem c2_ratio_is_score_over_cost :
    recRatio (mkRecommendation compute_intensive sysB) = some (3/25) ∧
      (3/25 : ℚ) ≠ 500/60 ∧
      recRatio (mkRecommendation compute_intensive sysZero) = some 0 := by
  refine ⟨?_, by norm_num, ?_⟩
  · rw [mkRecB]
    rfl
  · simp only [mkRecommendation, recRatio, score_sysZero]
    norm_num [sysZero]

/-- C10: a loaded system whose cost is exactly 0 gets an absent
(`None`) `cost_performance_ratio` — just like a system with no cost,
because the guard tests the truthiness of `cost` and `0` is falsy — and
is therefore never an element of the `with_cost` pool that best-value
selection draws from. -/
theorem c10_zero_cost_excluded (p : WorkloadProfile) (sys : SystemRecord)
    (h : sys.cost = some 0) :
    recRatio (mkRecommendation p sys) = none ∧
      recRatio (mkRecommendation p { sys with cost := none }) = none ∧
      ∀ recs, mkRecommendation p sys ∉ with_cost recs := by
  have h1 : recRatio (mkRecommendation p sys) = none := by
    simp [mkRecommendation, recRatio, h]
  refine ⟨h1, by simp [mkRecommendation, recRatio], ?_⟩
  intro recs hmem
  have h2 : ratioTruthy (mkRecommendation p sys) = false := by
    unfold ratioTruthy
    rw [h1]
  have h3 := List.of_mem_filter hmem
  rw [h2] at h3
  exact absurd h3 (by simp)

/-- Witness for C10 at a concrete zero-cost system. -/
theorem c10_zero_cost_excluded_witness :
    recRatio (mkRecommendation compute_intensive sysCost0) = none ∧
      mkRecommendation compute_intensive sysCost0 ∉
        with_cost [mkRecommendation compute_intensive sysCost0] :=
  ⟨(c10_zero_cost_excluded compute_intensive sysCost0 rfl).1,
   (c10_zero_cost_excluded compute_intensive sysCost0 rfl).2.2
     [mkRecommendation compute_intensive sysCost0]⟩

/-- Witness for C3 with the identity standing in for the square root. -/
theorem c3_disk_overwrites_error_witness :
    diskPatternRun id
        [.ok [("iops", 500), ("bandwidth_kb", 2000), ("latency_mean_us", 3)],
         .err "Benchmark timed out"] =
      some (.agg (aggregate_results id diskMetrics
        [[("iops", 500), ("bandwidth_kb", 2000), ("latency_mean_us", 3)]])) :=
  (c3_disk_overwrites_error id).1

/-- Witness for the amended C6 at entries scoring 80 and 60. -/
theorem c6_amended_present_weight_renormalization_witness :
    calculate_overall_score
        ⟨some (.ok 80 0 "" 0), some (.ok 60 0 "" 0), none, none⟩ =
      round2 ((NormEntry.getScore (.ok 80 0 "" 0) * (3/10) +
        NormEntry.getScore (.ok 60 0 "" 0) * (2/10)) / (3/10 + 2/10)) :=
  (c6_amended_present_weight_renormalization (.ok 80 0 "" 0)
    (.ok 60 0 "" 0)).1

/-- Witness for the amended C7 under the `database` profile. -/
theorem c7_amended_workload_score_witness :
    calculate_workload_score
        ⟨"x", ⟨some (.ok 90 0 "" 0), some (.ok 70 0 "" 0), none,
          some (.ok 40 0 "" 0)⟩, none⟩ database =
      round2 (90 * database.cpu_weight + 70 * database.memory_weight +
        40 * database.network_weight) :=
  (c7_amended_workload_score database 90 70 40).1
